import Mathlib

/-!
Shallow embedding of the TheRaven Bulk Order Editor route
(app/routes/app._index.tsx).

The file models, as pure Lean functions:
 - the server-side Remix `action` (lines 50-119): its branch on `actionType`,
   the single GraphQL orders query it issues for a search, the placeholder
   update branch, and the error fallback;
 - the JavaScript primitives the action relies on (FormData.get, parseInt
   with the falsy-coalescing idiom, string interpolation of a possibly-null
   value);
 - the client-side component state derived in BulkOrderEditor
   (lines 132-185): isLoading/isSearching, the orders extracted from the
   fetcher data, hasSearched, and the handleSearch / handleBulkUpdate
   handlers with their toast-and-return guards.

The remote Shopify Admin GraphQL endpoint is an external collaborator: it is
abstracted as a function from the query variables to a response, and the
remote calls the action performs are returned as an explicit trace so that
frame properties (which remote calls happen) can be stated.  Authentication
(authenticate.admin) is session plumbing outside the modelled logic.
-/

namespace RavenBulk

/-- A submitted form: ordered key/value pairs, as built by the component via
FormData.append. -/
structure FormData where
  pairs : List (String × String)
  deriving DecidableEq

/-- JS FormData.get: the first value appended under the key, or null (here
none) when the key is absent. -/
def FormData.get (fd : FormData) (k : String) : Option String :=
  (fd.pairs.find? (fun p => p.1 == k)).map (fun p => p.2)

/-- JS string coercion of a possibly-null string, as performed by a template
literal or by parseInt receiving a null argument: null prints as "null". -/
def jsString : Option String → String
  | none => "null"
  | some s => s

/-- The whitespace characters skipped by JS parseInt (the common ones; the
form values in this program never contain the exotic Unicode spaces). -/
def isWS (c : Char) : Bool :=
  c == ' ' || c == '\t' || c == '\n' || c == '\r'

/-- Decimal digit value of a character, none when it is not a digit. -/
def decDigit (c : Char) : Option Nat :=
  if c.isDigit then some (c.toNat - 48) else none

/-- Hexadecimal digit value of a character, none when it is not one. -/
def hexDigit (c : Char) : Option Nat :=
  if c.isDigit then some (c.toNat - 48)
  else if 'a' ≤ c && c ≤ 'f' then some (c.toNat - 87)
  else if 'A' ≤ c && c ≤ 'F' then some (c.toNat - 55)
  else none

/-- Reads the maximal prefix of digits (in the given base), accumulating a
value; returns the accumulator reached when a non-digit (or the end) is hit,
which is none when no digit was read at all — JS parseInt's NaN case. -/
def parseDigits (dig : Char → Option Nat) (base : Nat) :
    List Char → Option Nat → Option Nat
  | [], acc => acc
  | c :: cs, acc =>
    match dig c with
    | some d => parseDigits dig base cs (some ((acc.getD 0) * base + d))
    | none => acc

/-- JS parseInt with no radix argument: skip leading whitespace, read an
optional sign, then either a 0x/0X-prefixed hexadecimal or a decimal maximal
digit run; none models NaN (no digits read). -/
def jsParseInt (s : String) : Option Int :=
  let cs := s.toList.dropWhile isWS
  let signed : Bool × List Char :=
    match cs with
    | '-' :: rest => (true, rest)
    | '+' :: rest => (false, rest)
    | _ => (false, cs)
  let core : Option Nat :=
    match signed.2 with
    | '0' :: 'x' :: rest => parseDigits hexDigit 16 rest none
    | '0' :: 'X' :: rest => parseDigits hexDigit 16 rest none
    | _ => parseDigits decDigit 10 signed.2 none
  core.map (fun n => if signed.1 then -(n : Int) else (n : Int))

/-- The idiom parseInt(formData.get("orderCount") as string) || 0 of line
112: a null field stringifies to "null", an unparseable string gives NaN,
and || turns NaN (and 0 itself) into 0. -/
def jsParseIntOr0 (v : Option String) : Int :=
  match jsParseInt (jsString v) with
  | none => 0
  | some n => n

/-- shopMoney of the totalPriceSet selection in the orders query. -/
structure ShopMoney where
  amount : String
  currencyCode : String
  deriving DecidableEq

/-- totalPriceSet of an order node. -/
structure TotalPriceSet where
  shopMoney : ShopMoney
  deriving DecidableEq

/-- customer of an order node; Shopify returns null for guest checkouts and
for missing fields, hence the options. -/
structure Customer where
  displayName : Option String
  email : Option String
  deriving DecidableEq

/-- One order node as selected by the GetOrdersByFinancialStatus query. -/
structure OrderNode where
  id : String
  name : String
  createdAt : String
  displayFinancialStatus : String
  displayFulfillmentStatus : String
  totalPriceSet : TotalPriceSet
  customer : Option Customer
  deriving DecidableEq

/-- One edge of the orders connection: a node and its cursor. -/
structure OrderEdge where
  node : OrderNode
  cursor : String
  deriving DecidableEq

/-- pageInfo of the orders connection; hasNextPage is optional because the
action reads it through pageInfo?.hasNextPage || false. -/
structure PageInfo where
  hasNextPage : Option Bool
  deriving DecidableEq

/-- The orders connection; edges and pageInfo are optional because the
action reads them through optional chaining. -/
structure OrdersConnection where
  edges : Option (List OrderEdge)
  pageInfo : Option PageInfo
  deriving DecidableEq

/-- The data field of the GraphQL response. -/
structure QueryData where
  orders : Option OrdersConnection
  deriving DecidableEq

/-- A GraphQL response body as read by response.json(); every level is
optional, matching the responseJson.data?.orders?... reads of lines 99-100. -/
structure GraphQLResponse where
  data : Option QueryData
  deriving DecidableEq

/-- A remote Admin API call the action can perform.  The search branch
issues ordersQuery with the variables of lines 88-93 (the query document has
no cursor variable); setFinancialStatus stands for any mutation that would
change an order's financial status — the modelled route never issues one,
and its presence in the type lets frame properties say so. -/
inductive RemoteCall where
  | ordersQuery (first : Nat) (query : String)
  | setFinancialStatus (orderId : String) (newStatus : String)
  deriving DecidableEq

/-- Whether a remote call is a mutation of an order's financial status. -/
def isMutation : RemoteCall → Bool
  | RemoteCall.ordersQuery _ _ => false
  | RemoteCall.setFinancialStatus _ _ => true

/-- The three response shapes of the action, after the type definitions of
lines 21-41: SearchActionResponse, UpdateActionResponse, ErrorActionResponse.
fromStatus/toStatus are echoed raw from the form (FormData.get may give
null, hence the options). -/
inductive ActionResponse where
  | search (orders : List OrderEdge) (hasNextPage : Bool)
      (fromStatus toStatus : Option String)
  | update (success : Bool) (updatedCount : Int)
      (fromStatus toStatus : Option String)
  | error (msg : String)
  deriving DecidableEq

/-- The Remix action of lines 50-119, as a pure function of the submitted
form and of the remote GraphQL endpoint (abstracted as a function from the
variables first and query to a response).  Besides the response it returns
the trace of remote calls performed, in order.  The search branch issues one
ordersQuery with first = 250 and query = financial_status:<fromStatus> and
defaults every missing response field exactly as the optional chains of
lines 99-100 do; the update branch is the placeholder of lines 106-116 and
performs no remote call; anything else is the invalid-action error. -/
def action (form : FormData) (client : Nat → String → GraphQLResponse) :
    ActionResponse × List RemoteCall :=
  let actionType := FormData.get form "actionType"
  let fromStatus := FormData.get form "fromStatus"
  let toStatus := FormData.get form "toStatus"
  if actionType = some "search" then
    let query := "financial_status:" ++ jsString fromStatus
    let responseJson := client 250 query
    let conn := responseJson.data.bind (fun d => d.orders)
    ( ActionResponse.search ((conn.bind (fun o => o.edges)).getD [])
        ((((conn.bind (fun o => o.pageInfo)).bind
            (fun p => p.hasNextPage)).getD false))
        fromStatus toStatus,
      [RemoteCall.ordersQuery 250 query] )
  else if actionType = some "update" then
    ( ActionResponse.update true (jsParseIntOr0 (FormData.get form "orderCount"))
        fromStatus toStatus,
      [] )
  else
    ( ActionResponse.error "Invalid action", [] )

/-- The Remote Order API Client modelled by its contract (an external
collaborator, not code of this repository): for the list remote of orders
matching the query, a request for the first n returns those n edges and
reports hasNextPage exactly when the result set extends beyond them. -/
def honestClient (remote : List OrderEdge) : Nat → String → GraphQLResponse :=
  fun first _query =>
    ⟨some ⟨some ⟨some (remote.take first),
      some ⟨some (decide (first < remote.length))⟩⟩⟩⟩

/-- The orders of a search response (empty for the other shapes, matching
the in-check extraction of line 143). -/
def responseOrders : ActionResponse → List OrderEdge
  | ActionResponse.search os _ _ _ => os
  | _ => []

/-- The hasNextPage flag of a search response. -/
def responseHasNextPage : ActionResponse → Bool
  | ActionResponse.search _ hn _ _ => hn
  | _ => false

/-- Whether a response is the error shape. -/
def responseIsError : ActionResponse → Bool
  | ActionResponse.error _ => true
  | _ => false

/-- The component state BulkOrderEditor reads (lines 132-145): the two
Select bindings and the fetcher's state, in-flight form data and last
returned data.  fetcherData is none before any response has arrived; during
a resubmission the fetcher keeps the previous response's data. -/
structure UIState where
  fromStatus : String
  toStatus : String
  fetcherState : String
  fetcherFormData : Option FormData
  fetcherData : Option ActionResponse
  deriving DecidableEq

/-- Line 139: the fetcher is loading or submitting. -/
def isLoading (s : UIState) : Bool :=
  s.fetcherState == "loading" || s.fetcherState == "submitting"

/-- Line 140: a search submission is in flight. -/
def isSearching (s : UIState) : Bool :=
  isLoading s &&
    ((s.fetcherFormData.bind (fun fd => FormData.get fd "actionType")) ==
      some "search")

/-- Line 141: an update submission is in flight. -/
def isUpdating (s : UIState) : Bool :=
  isLoading s &&
    ((s.fetcherFormData.bind (fun fd => FormData.get fd "actionType")) ==
      some "update")

/-- Line 143: the orders list shown by the component — the fetcher data's
orders field when present (only the search shape has one), else empty. -/
def orders (s : UIState) : List OrderEdge :=
  match s.fetcherData with
  | some (ActionResponse.search os _ _ _) => os
  | _ => []

/-- Line 144: the fetcher data is a search response. -/
def hasSearched (s : UIState) : Bool :=
  match s.fetcherData with
  | some (ActionResponse.search _ _ _ _) => true
  | _ => false

/-- Line 145: the fetcher data is an update response with success true. -/
def hasUpdated (s : UIState) : Bool :=
  match s.fetcherData with
  | some (ActionResponse.update ok _ _ _) => ok
  | _ => false

/-- An observable effect of a click handler: an error toast, or a POST of a
form to the action. -/
inductive UIEffect where
  | toastError (msg : String)
  | submitForm (form : FormData)
  deriving DecidableEq

/-- Whether an effect submits a form. -/
def isSubmit : UIEffect → Bool
  | UIEffect.submitForm _ => true
  | UIEffect.toastError _ => false

/-- handleSearch (lines 153-165): with no From Status selected it shows an
error toast and returns; otherwise it submits the search form. -/
def handleSearch (s : UIState) : List UIEffect :=
  if s.fromStatus = "" then
    [UIEffect.toastError "Please select a financial status to search for"]
  else
    [UIEffect.submitForm ⟨[("actionType", "search"),
      ("fromStatus", s.fromStatus), ("toStatus", s.toStatus)]⟩]

/-- handleBulkUpdate (lines 167-185): with no To Status selected, or with an
empty orders list, it shows an error toast and returns; otherwise it submits
the update form carrying orders.length as orderCount. -/
def handleBulkUpdate (s : UIState) : List UIEffect :=
  if s.toStatus = "" then
    [UIEffect.toastError "Please select a status to update to"]
  else if (orders s).length = 0 then
    [UIEffect.toastError "No orders found to update"]
  else
    [UIEffect.submitForm ⟨[("actionType", "update"),
      ("fromStatus", s.fromStatus), ("toStatus", s.toStatus),
      ("orderCount", toString (orders s).length)]⟩]

/-- FINANCIAL_STATUS_OPTIONS (lines 121-130): label/value pairs offered by
both Select controls. -/
structure StatusOption where
  label : String
  value : String
  deriving DecidableEq

/-- The fixed option list of lines 121-130. -/
def FINANCIAL_STATUS_OPTIONS : List StatusOption :=
  [⟨"Select status...", ""⟩,
   ⟨"Authorized", "authorized"⟩,
   ⟨"Paid", "paid"⟩,
   ⟨"Pending", "pending"⟩,
   ⟨"Partially Paid", "partially_paid"⟩,
   ⟨"Partially Refunded", "partially_refunded"⟩,
   ⟨"Refunded", "refunded"⟩,
   ⟨"Voided", "voided"⟩]

/-- A valid StatusValue: a non-placeholder value of the fixed option list. -/
def validStatus (v : String) : Prop :=
  v ≠ "" ∧ v ∈ FINANCIAL_STATUS_OPTIONS.map (fun o => o.value)

/-- A concrete pending order edge, used as test data. -/
def sampleEdge : OrderEdge :=
  ⟨⟨"gid://shopify/Order/1", "#1001", "2024-01-01T00:00:00Z", "PENDING",
    "UNFULFILLED", ⟨⟨"10.00", "USD"⟩⟩, none⟩, "cursor1"⟩

/-- A second edge carrying the same order identifier as sampleEdge (the API
inconsistency the dedup requirement speaks about). -/
def sampleEdgeDup : OrderEdge :=
  ⟨⟨"gid://shopify/Order/1", "#1002", "2024-01-02T00:00:00Z", "PENDING",
    "UNFULFILLED", ⟨⟨"20.00", "USD"⟩⟩, none⟩, "cursor2"⟩

/-- A search submission for the pending status, as handleSearch builds it. -/
def plainSearchForm : FormData :=
  ⟨[("actionType", "search"), ("fromStatus", "pending"), ("toStatus", "paid")]⟩

/-- A search submission carrying a status outside the fixed option list. -/
def bogusForm : FormData :=
  ⟨[("actionType", "search"), ("fromStatus", "bogus"), ("toStatus", "paid")]⟩

/-- An update submission for one order, as handleBulkUpdate builds it. -/
def updateForm1 : FormData :=
  ⟨[("actionType", "update"), ("fromStatus", "pending"), ("toStatus", "paid"),
    ("orderCount", "1")]⟩

/-- An update submission claiming seven orders. -/
def updateForm7 : FormData :=
  ⟨[("actionType", "update"), ("fromStatus", "pending"), ("toStatus", "paid"),
    ("orderCount", "7")]⟩

/-- An update submission with no orderCount field at all. -/
def updateFormNoCount : FormData :=
  ⟨[("actionType", "update"), ("fromStatus", "pending"), ("toStatus", "paid")]⟩

/-- A remote endpoint answering every query with an entirely empty body. -/
def emptyClient : Nat → String → GraphQLResponse :=
  fun _ _ => ⟨none⟩

/-- A remote endpoint whose response carries edges but no pageInfo field. -/
def pageInfoLessClient : Nat → String → GraphQLResponse :=
  fun _ _ => ⟨some ⟨some ⟨some [sampleEdge], none⟩⟩⟩

/-- Component state before any interaction: nothing selected, no fetcher
activity, no data. -/
def idleState : UIState :=
  ⟨"", "", "idle", none, none⟩

/-- Component state with both statuses selected but no search data loaded. -/
def emptyOrdersState : UIState :=
  ⟨"pending", "paid", "idle", none, none⟩

/-- Component state while a second search is in flight: the fetcher is
submitting a search form, and still holds the previous search's response
with one order. -/
def searchingState : UIState :=
  ⟨"pending", "paid", "submitting",
   some ⟨[("actionType", "search"), ("fromStatus", "pending"),
     ("toStatus", "paid")]⟩,
   some (ActionResponse.search [sampleEdge] false (some "pending") (some ""))⟩

/-- Helper: when the fetcher data is not a search response (hasSearched is
false), the component's orders list is empty. -/
theorem orders_nil_of_not_searched (s : UIState) (h : hasSearched s = false) :
    orders s = [] := by
  cases hd : s.fetcherData with
  | none => simp [orders, hd]
  | some r =>
    cases r with
    | search os hn fs ts => simp [hasSearched, hd] at h
    | update ok n fs ts => simp [orders, hd]
    | error m => simp [orders, hd]

/-- Helper: with an empty orders list, handleBulkUpdate only toasts. -/
theorem handleBulkUpdate_empty_orders (s : UIState) (h : orders s = []) :
    handleBulkUpdate s =
      (if s.toStatus = "" then
        [UIEffect.toastError "Please select a status to update to"]
       else
        [UIEffect.toastError "No orders found to update"]) := by
  unfold handleBulkUpdate
  rw [h]
  by_cases ht : s.toStatus = "" <;> simp [ht]

/-- Claim C1: a POST with actionType update performs no remote call at all —
in particular no order's financial status is mutated — and returns success
true with updatedCount the integer parsed from the orderCount field, or 0
when that field is absent or unparseable. -/
theorem update_is_pure_echo (form : FormData)
    (client : Nat → String → GraphQLResponse)
    (h : FormData.get form "actionType" = some "update") :
    (action form client).2 = [] ∧
    (action form client).1 = ActionResponse.update true
      (jsParseIntOr0 (FormData.get form "orderCount"))
      (FormData.get form "fromStatus") (FormData.get form "toStatus") ∧
    (∀ n : Int, jsParseInt (jsString (FormData.get form "orderCount")) = some n →
      jsParseIntOr0 (FormData.get form "orderCount") = n) ∧
    (jsParseInt (jsString (FormData.get form "orderCount")) = none →
      jsParseIntOr0 (FormData.get form "orderCount") = 0) := by
  refine ⟨?_, ?_, ?_, ?_⟩
  · simp [action, h]
  · simp [action, h]
  · intro n hn
    simp [jsParseIntOr0, hn]
  · intro hn
    simp [jsParseIntOr0, hn]

/-- Witness for C1: an update form with no orderCount field produces no
remote calls and echoes updatedCount 0. -/
theorem update_is_pure_echo_witness :
    (action updateFormNoCount emptyClient).2 = [] ∧
    (action updateFormNoCount emptyClient).1 = ActionResponse.update true
      (jsParseIntOr0 (FormData.get updateFormNoCount "orderCount"))
      (FormData.get updateFormNoCount "fromStatus")
      (FormData.get updateFormNoCount "toStatus") :=
  ⟨(update_is_pure_echo updateFormNoCount emptyClient rfl).1,
   (update_is_pure_echo updateFormNoCount emptyClient rfl).2.1⟩

/-- Claim C2: for a valid filter status, the search response's item count
never exceeds the configured cap (first = 250, line 90), and hasNextPage is
true exactly when the remote result set extends beyond that cap. -/
theorem search_respects_pageCap (remote : List OrderEdge) (form : FormData)
    (h : FormData.get form "actionType" = some "search")
    (_hv : ∃ v, FormData.get form "fromStatus" = some v ∧ validStatus v) :
    (responseOrders (action form (honestClient remote)).1).length ≤ 250 ∧
    ((responseHasNextPage (action form (honestClient remote)).1) = true ↔
      250 < remote.length) := by
  constructor
  · simp [action, h, honestClient, responseOrders, List.length_take]
  · simp [action, h, honestClient, responseHasNextPage]

/-- Witness for C2: a one-order remote set for the pending status stays
within the cap. -/
theorem search_respects_pageCap_witness :
    (responseOrders (action plainSearchForm (honestClient [sampleEdge])).1).length
      ≤ 250 :=
  (search_respects_pageCap [sampleEdge] plainSearchForm rfl
    ⟨"pending", rfl, by decide, by decide⟩).1

/-- Claim C3: the search's remote trace consists of page fetches only —
exactly one ordersQuery, carrying the page size 250 and the financial_status
filter and no cursor (the query document of lines 60-87 has no cursor
variable, so the pass-the-previous-cursor requirement is vacuous for this
single call) — and the engine stops only where either the client reports no
further pages or the accumulated count has reached the 250 cap. -/
theorem search_single_page_stop (remote : List OrderEdge) (form : FormData)
    (h : FormData.get form "actionType" = some "search") :
    (action form (honestClient remote)).2 =
      [RemoteCall.ordersQuery 250
        ("financial_status:" ++ jsString (FormData.get form "fromStatus"))] ∧
    ((responseHasNextPage (action form (honestClient remote)).1) = false ∨
      (responseOrders (action form (honestClient remote)).1).length = 250) := by
  constructor
  · simp [action, h]
  · by_cases hl : 250 < remote.length
    · right
      simp [action, h, honestClient, responseOrders, List.length_take]
      omega
    · left
      simp [action, h, honestClient, responseHasNextPage, hl]

/-- Witness for C3: the empty remote set yields the single page-fetch call
and a result reporting no further pages. -/
theorem search_single_page_stop_witness :
    (action plainSearchForm (honestClient [])).2 =
      [RemoteCall.ordersQuery 250
        ("financial_status:" ++
          jsString (FormData.get plainSearchForm "fromStatus"))] :=
  (search_single_page_stop [] plainSearchForm rfl).1

/-- Claim C4 counterexample: the search branch performs no de-duplication —
a remote page repeating an identifier yields a search result in which two
items share that identifier, so the dedup invariant fails as stated. -/
theorem duplicate_ids_not_deduplicated :
    ¬ ((responseOrders (action plainSearchForm
        (honestClient [sampleEdge, sampleEdgeDup])).1).map
          (fun e => e.node.id)).Nodup := by decide

/-- Claim C4 amended: the search result is the remote page verbatim, with no
de-duplication, so its identifiers are pairwise distinct exactly on remote
result sets whose identifiers already are. -/
theorem search_nodup_preserved (remote : List OrderEdge) (form : FormData)
    (h : FormData.get form "actionType" = some "search")
    (hnd : (remote.map (fun e => e.node.id)).Nodup) :
    ((responseOrders (action form (honestClient remote)).1).map
      (fun e => e.node.id)).Nodup := by
  have hsub : ((remote.take 250).map (fun e => e.node.id)).Sublist
      (remote.map (fun e => e.node.id)) :=
    (List.take_sublist 250 remote).map (fun e => e.node.id)
  have hres : ((remote.take 250).map (fun e => e.node.id)).Nodup :=
    List.Nodup.sublist hsub hnd
  simpa [action, h, honestClient, responseOrders] using hres

/-- Witness for C4 amended: a duplicate-free one-order remote set yields a
duplicate-free result. -/
theorem search_nodup_preserved_witness :
    ((responseOrders (action plainSearchForm (honestClient [sampleEdge])).1).map
      (fun e => e.node.id)).Nodup :=
  search_nodup_preserved [sampleEdge] plainSearchForm rfl (by decide)

/-- Claim C5 counterexample: with a second search in flight (isSearching —
the searching phase) and the previous search's response still held by the
fetcher, handleBulkUpdate submits an update instead of rejecting it, and the
action answers that update with success, not with any rejection. -/
theorem searching_phase_update_accepted :
    isSearching searchingState = true ∧
    handleBulkUpdate searchingState = [UIEffect.submitForm updateForm1] ∧
    (action updateForm1 emptyClient).1 =
      ActionResponse.update true 1 (some "pending") (some "paid") ∧
    responseIsError (action updateForm1 emptyClient).1 = false := by
  refine ⟨by decide, by decide, by decide, by decide⟩

/-- Claim C5 amended: an update request never triggers a remote mutation
call (the update branch performs no remote call at all), and when no search
result is loaded (hasSearched false — the idle phase and a first search in
flight) handleBulkUpdate submits nothing, rejecting with an error toast;
the rejection does not extend to a re-search holding stale results. -/
theorem wrong_phase_no_mutation (s : UIState) (form : FormData)
    (client : Nat → String → GraphQLResponse)
    (hph : hasSearched s = false)
    (hupd : FormData.get form "actionType" = some "update") :
    (∀ e ∈ handleBulkUpdate s, isSubmit e = false) ∧
    (∀ c ∈ (action form client).2, isMutation c = false) := by
  constructor
  · have ho := orders_nil_of_not_searched s hph
    have hb := handleBulkUpdate_empty_orders s ho
    intro e he
    rw [hb] at he
    by_cases ht : s.toStatus = "" <;> simp [ht] at he <;> rw [he] <;> rfl
  · intro c hc
    simp [action, hupd] at hc

/-- Witness for C5 amended: the idle component state and a concrete update
form. -/
theorem wrong_phase_no_mutation_witness :
    (∀ e ∈ handleBulkUpdate idleState, isSubmit e = false) ∧
    (∀ c ∈ (action updateForm1 emptyClient).2, isMutation c = false) :=
  wrong_phase_no_mutation idleState updateForm1 emptyClient rfl rfl

/-- Claim C6 (divergence): whatever the remote endpoint would answer, the
update branch performs zero remote calls — a rate-limited target is never
attempted even once, so no retry bound and no per-item RateLimited failure
record exist — and the response is the placeholder's unconditional
success. -/
theorem rate_limited_target_never_attempted
    (client : Nat → String → GraphQLResponse) :
    (action updateForm1 client).2 = [] ∧
    (action updateForm1 client).1 =
      ActionResponse.update true 1 (some "pending") (some "paid") :=
  ⟨rfl, rfl⟩

/-- Claim C7 (divergence): the update response carries only a success flag
and a scalar updatedCount echoed from the submitted form — no attempted,
succeeded or failed identifier sets exist anywhere in it, so the code
computes no partition on which the invariant could be read. -/
theorem update_outcome_is_scalar_only
    (client : Nat → String → GraphQLResponse) :
    (action updateForm7 client).1 =
      ActionResponse.update true 7 (some "pending") (some "paid") ∧
    (action updateForm7 client).2 = [] :=
  ⟨rfl, rfl⟩

/-- Claim C8 counterexample: the action never validates a status against
the fixed option list — the value bogus, not an allowed StatusValue, is
interpolated into the remote query and the remote call is made, with no
ValidationError rejection before or after it. -/
theorem invalid_status_not_validated :
    ("bogus" ∈ FINANCIAL_STATUS_OPTIONS.map (fun o => o.value) → False) ∧
    (action bogusForm (honestClient [])).2 =
      [RemoteCall.ordersQuery 250 "financial_status:bogus"] ∧
    responseIsError (action bogusForm (honestClient [])).1 = false := by
  refine ⟨by decide, by decide, by decide⟩

/-- Claim C8 amended: validation is client-side only — the Select controls
offer the fixed option list, and an empty (unselected) status is rejected
with an error toast before any submission; the server action itself checks
nothing and forwards any submitted status into the remote query. -/
theorem empty_status_rejected_in_ui (s : UIState) :
    (s.fromStatus = "" →
      handleSearch s =
        [UIEffect.toastError "Please select a financial status to search for"]) ∧
    (s.toStatus = "" →
      handleBulkUpdate s =
        [UIEffect.toastError "Please select a status to update to"]) := by
  constructor
  · intro h
    simp [handleSearch, h]
  · intro h
    simp [handleBulkUpdate, h]

/-- Witness for C8 amended: the idle state has both statuses unselected and
both handlers reject with the corresponding toasts. -/
theorem empty_status_rejected_in_ui_witness :
    handleSearch idleState =
      [UIEffect.toastError "Please select a financial status to search for"] ∧
    handleBulkUpdate idleState =
      [UIEffect.toastError "Please select a status to update to"] :=
  ⟨(empty_status_rejected_in_ui idleState).1 rfl,
   (empty_status_rejected_in_ui idleState).2 rfl⟩

/-- Claim C9: an update attempted with an empty target list is rejected with
an error toast — distinct from a zero-result success, since nothing is
submitted and no update response is produced — and no mutation is attempted
because no form reaches the action at all. -/
theorem empty_targets_update_rejected (s : UIState)
    (h : orders s = []) :
    (handleBulkUpdate s =
        [UIEffect.toastError "Please select a status to update to"] ∨
     handleBulkUpdate s =
        [UIEffect.toastError "No orders found to update"]) ∧
    (∀ e ∈ handleBulkUpdate s, isSubmit e = false) := by
  have hb := handleBulkUpdate_empty_orders s h
  constructor
  · rw [hb]
    by_cases ht : s.toStatus = "" <;> simp [ht]
  · intro e he
    rw [hb] at he
    by_cases ht : s.toStatus = "" <;> simp [ht] at he <;> rw [he] <;> rfl

/-- Witness for C9: statuses selected but no orders loaded. -/
theorem empty_targets_update_rejected_witness :
    (handleBulkUpdate emptyOrdersState =
        [UIEffect.toastError "Please select a status to update to"] ∨
     handleBulkUpdate emptyOrdersState =
        [UIEffect.toastError "No orders found to update"]) ∧
    (∀ e ∈ handleBulkUpdate emptyOrdersState, isSubmit e = false) :=
  empty_targets_update_rejected emptyOrdersState rfl

/-- Claim C10 counterexample: a response missing only its pageInfo field but
carrying edges yields those edges — not the empty orders list the claim
states — while hasNextPage falls back to false. -/
theorem missing_pageInfo_keeps_orders :
    (pageInfoLessClient 250 "financial_status:pending").data.bind
        (fun d => d.orders.bind (fun o => o.pageInfo)) = none ∧
    responseOrders (action plainSearchForm pageInfoLessClient).1 = [sampleEdge] ∧
    (responseOrders (action plainSearchForm pageInfoLessClient).1 = [] → False) ∧
    responseHasNextPage (action plainSearchForm pageInfoLessClient).1 = false := by
  refine ⟨by decide, by decide, by decide, by decide⟩

/-- Claim C10 amended: each missing response field is defaulted on its own —
a response missing data or orders yields the empty orders list and
hasNextPage false; a response missing pageInfo yields hasNextPage false
while orders are whatever edges are present; the action never fails on the
missing field. -/
theorem missing_fields_defaulted (form : FormData) (resp : GraphQLResponse)
    (h : FormData.get form "actionType" = some "search") :
    (resp.data.bind (fun d => d.orders) = none →
      responseOrders (action form (fun _ _ => resp)).1 = [] ∧
      responseHasNextPage (action form (fun _ _ => resp)).1 = false) ∧
    ((resp.data.bind (fun d => d.orders)).bind (fun o => o.pageInfo) = none →
      responseHasNextPage (action form (fun _ _ => resp)).1 = false) := by
  constructor
  · intro hm
    constructor <;> simp [action, h, responseOrders, responseHasNextPage, hm]
  · intro hm
    simp [action, h, responseHasNextPage, hm]

/-- Witness for C10 amended: the entirely empty response body defaults to no
orders and no next page. -/
theorem missing_fields_defaulted_witness :
    responseOrders
        (action plainSearchForm (fun _ _ => (⟨none⟩ : GraphQLResponse))).1 = [] ∧
    responseHasNextPage
        (action plainSearchForm (fun _ _ => (⟨none⟩ : GraphQLResponse))).1 = false :=
  (missing_fields_defaulted plainSearchForm ⟨none⟩ rfl).1 rfl

end RavenBulk
